import Mathlib

/-!
# Verification of the video-generation app lifecycle tracker, storage and validation

Shallow embedding of the TypeScript sources:

* `src/hooks/use-video-generation.ts` — the generation lifecycle tracker
  (`useVideoGeneration`): the active set, the in-memory history, the
  progress-simulation ticker, `generateVideo`, `pollForCompletion` and
  `cancelGeneration`.
* `src/lib/video-api.ts` — the API client (`VideoGenerationAPI`), the
  request validator `validateVideoRequest`, and the localStorage history
  helpers (`saveGenerationToHistory`, `getGenerationHistory`,
  `exportGenerationHistory`, `importGenerationHistory`).
* `src/app/api/generate-video/route.ts` — the proxy endpoint `POST`
  handler with its inline request validation.
* `src/unnamed/part_000` (the `HomePage` component) and
  `src/unnamed/part_001` (the `VideoGenerator` and `GenerationQueue`
  components) — the page-level queue with its own simulated-completion
  callback, a second implementation parallel to the hook.

Modelling conventions:

* JavaScript numbers carrying progress, durations and times are modelled
  by `ℚ`; the nondeterministic values produced by `Math.random()` (ticker
  increments, fresh identifiers, task identifiers) become explicit
  parameters of the step functions.
* Timestamps (`new Date().toISOString()`) are opaque strings passed in as
  parameters.
* The event loop is modelled by applying the step functions
  (`startGeneration`, `progressTick`, `handleSubmitResponse`, `pollFire`,
  `cancelGeneration`) to an explicit `TrackerState`; each step is the body
  of one `setState` callback / event handler from the source, which the
  browser runs atomically on the single JS thread.
* JSON texts held in localStorage are modelled by their parsed values:
  every write the storage module performs stores a JSON array (directly,
  or after an `Array.isArray` check), so the slot is an
  `Option (List Json)`; an absent or unparseable slot is `none`.
-/

/-- The `status` field of a `Generation`:
`processing / completed / failed`. -/
inductive Status where
  | processing
  | completed
  | failed
deriving DecidableEq, Repr

/-- `GenerationConfig` from `use-video-generation.ts`: duration, aspect
ratio, style and quality.  The TypeScript union types for aspect ratio and
quality are modelled as strings; the validators check membership in the
allowed sets, exactly as the JavaScript does at runtime. -/
structure GenerationConfig where
  duration : ℚ
  aspectRatio : String
  style : String
  quality : String
deriving DecidableEq, Repr

/-- `Generation` from `use-video-generation.ts`.  Optional TypeScript
fields (`completedAt?`, `videoUrl?`, `error?`, `taskId?`) become
`Option`s; a field that the code never assigned is `none`. -/
structure Generation where
  id : String
  prompt : String
  config : GenerationConfig
  status : Status
  createdAt : String
  completedAt : Option String
  videoUrl : Option String
  error : Option String
  progress : ℚ
  taskId : Option String
deriving DecidableEq, Repr

/-- `VideoGenerationResponse`: the response shape shared by the proxy
endpoint and the API client. -/
structure VideoGenerationResponse where
  success : Bool
  videoUrl : Option String
  error : Option String
  taskId : Option String
  status : Option Status
  estimatedTime : Option ℚ
deriving DecidableEq, Repr

/-- The state held by the `useVideoGeneration` hook: the three `useState`
cells `activeGenerations`, `generationHistory` and `isGenerating`. -/
structure TrackerState where
  activeGenerations : List Generation
  generationHistory : List Generation
  isGenerating : Bool
deriving DecidableEq, Repr

/-- The initial hook state: `useState([])`, `useState([])`,
`useState(false)`. -/
def initialState : TrackerState :=
  { activeGenerations := [], generationHistory := [], isGenerating := false }

/-- Models JavaScript `String.prototype.trim()` (strip leading and
trailing whitespace), written over the character list so that it is fully
computable by the kernel. -/
def jsTrim (s : String) : String :=
  String.mk (((s.data.dropWhile Char.isWhitespace).reverse.dropWhile
    Char.isWhitespace).reverse)

/-- JavaScript truthiness of an optional string: `undefined`, `null` and
`""` are falsy. -/
def strTruthy : Option String → Bool
  | none => false
  | some s => !(s == "")

/-- JavaScript `a || b` on an optional string with a string default, as in
`response.error with default Generation failed`. -/
def jsOr (o : Option String) (d : String) : String :=
  match o with
  | some s => if s = "" then d else s
  | none => d

/-- The `Generation` literal built at the top of `generateVideo`:
status `processing`, progress `0`, trimmed prompt, fresh identifier, and
no terminal fields.  `freshId` stands for the result of
`generateUniqueId()` and `now` for `new Date().toISOString()`. -/
def mkGeneration (freshId prompt : String) (config : GenerationConfig)
    (now : String) : Generation :=
  { id := freshId
    prompt := jsTrim prompt
    config := config
    status := .processing
    createdAt := now
    completedAt := none
    videoUrl := none
    error := none
    progress := 0
    taskId := none }

/-- The synchronous prefix of `generateVideo` (lines 82–93): build the
`Generation`, append it to the active set
(`setActiveGenerations(prev => [...prev, generation])`), and set
`isGenerating` to `true`. -/
def startGeneration (freshId prompt : String) (config : GenerationConfig)
    (now : String) (s : TrackerState) : TrackerState :=
  { s with
    activeGenerations :=
      s.activeGenerations ++ [mkGeneration freshId prompt config now]
    isGenerating := true }

/-- The continuation of `generateVideo` after `videoAPI.generateVideo`
resolves (lines 104–154).  `g` is the `Generation` record captured by the
closure at submission time, `resp` the client response and `now` the
timestamp taken inside the branch.  The three branches are: immediate
completion, still-processing (task id recorded, progress set to 5, the
simulated-completion timer is scheduled), and the catch-all failure path
reached by `throw new Error` on `response.error` with the default message `Generation failed`.
The `finally` block clears `isGenerating`. -/
def handleSubmitResponse (g : Generation) (resp : VideoGenerationResponse)
    (now : String) (s : TrackerState) : TrackerState :=
  if resp.success ∧ resp.status = some Status.completed ∧
      strTruthy resp.videoUrl = true then
    let completedGeneration : Generation :=
      { g with
        status := .completed
        videoUrl := resp.videoUrl
        completedAt := some now
        progress := 100 }
    { activeGenerations := s.activeGenerations.filter (fun x => !(x.id == g.id))
      generationHistory := completedGeneration :: s.generationHistory
      isGenerating := false }
  else if resp.success ∧ resp.status = some Status.processing then
    { activeGenerations :=
        s.activeGenerations.map (fun x =>
          if x.id = g.id then { x with taskId := resp.taskId, progress := 5 }
          else x)
      generationHistory := s.generationHistory
      isGenerating := false }
  else
    let failedGeneration : Generation :=
      { g with
        status := .failed
        error := some (jsOr resp.error "Generation failed")
        completedAt := some now
        progress := 0 }
    { activeGenerations := s.activeGenerations.filter (fun x => !(x.id == g.id))
      generationHistory := failedGeneration :: s.generationHistory
      isGenerating := false }

/-- The placeholder result URL hard-coded in `pollForCompletion`. -/
def simulatedVideoUrl : String :=
  "https://storage.googleapis.com/workspace-0f70711f-8b4e-4d94-86f1-2a93ccde5887/image/eb71a242-4475-492a-b448-b8cb1f9c56af.png"

/-- The body of the `setTimeout` callback scheduled by
`pollForCompletion` (lines 161–179): look the generation up in the active
set by identifier; if it is absent, return the state unchanged; otherwise
mark it completed with the placeholder URL and progress 100, prepend it to
the history and remove it from the active set. -/
def pollFire (generationId now : String) (s : TrackerState) : TrackerState :=
  match s.activeGenerations.find? (fun x => x.id == generationId) with
  | none => s
  | some generation =>
    let completedGeneration : Generation :=
      { generation with
        status := .completed
        videoUrl := some simulatedVideoUrl
        completedAt := some now
        progress := 100 }
    { s with
      generationHistory := completedGeneration :: s.generationHistory
      activeGenerations :=
        s.activeGenerations.filter (fun x => !(x.id == generationId)) }

/-- `cancelGeneration` (lines 182–199): look the generation up in the
active set; if absent, no-op; otherwise build the cancelled record
(status `failed`, error `"Cancelled by user"`, completion timestamp — the
progress field is left as it was), prepend it to the history and remove
the generation from the active set. -/
def cancelGeneration (id now : String) (s : TrackerState) : TrackerState :=
  match s.activeGenerations.find? (fun x => x.id == id) with
  | none => s
  | some generation =>
    let cancelledGeneration : Generation :=
      { generation with
        status := .failed
        error := some "Cancelled by user"
        completedAt := some now }
    { s with
      generationHistory := cancelledGeneration :: s.generationHistory
      activeGenerations := s.activeGenerations.filter (fun x => !(x.id == id)) }

/-- The per-generation update in the progress-simulation interval (lines
59–68): a generation that is `processing` with progress `< 90` moves to
`min (progress + inc) 90`, where `inc` stands for the sampled
`Math.random() * 8 + 2` (so `2 ≤ inc < 10`); every other generation is
returned unchanged. -/
def tickGen (inc : ℚ) (g : Generation) : Generation :=
  if g.status = Status.processing ∧ g.progress < 90 then
    { g with progress := min (g.progress + inc) 90 }
  else g

/-- One firing of the 3-second interval: map `tickGen` over the active
set, sampling an increment per generation (`inc` gives the sample for
each identifier). -/
def progressTick (inc : String → ℚ) (s : TrackerState) : TrackerState :=
  { s with
    activeGenerations := s.activeGenerations.map (fun g => tickGen (inc g.id) g) }

/-- The state of the `HomePage` component (`src/unnamed/part_000`): the
two `useState` cells `activeGenerations` and `generationHistory`.  This
page wires the `VideoGenerator` and `GenerationQueue` components together
and keeps its own queue and history, independent of the
`useVideoGeneration` hook. -/
structure PageState where
  activeGenerations : List Generation
  generationHistory : List Generation
deriving DecidableEq, Repr

/-- `HomePage.handleNewGeneration`: append the new generation to the
active set. -/
def handleNewGeneration (generation : Generation) (s : PageState) : PageState :=
  { s with activeGenerations := s.activeGenerations ++ [generation] }

/-- `HomePage.handleGenerationComplete`: remove the identifier of the
record from the active set and prepend the record to the history.  Note
there is no check that the identifier is still in the active set. -/
def handleGenerationComplete (completedGeneration : Generation)
    (s : PageState) : PageState :=
  { activeGenerations :=
      s.activeGenerations.filter (fun gen => !(gen.id == completedGeneration.id))
    generationHistory := completedGeneration :: s.generationHistory }

/-- `HomePage.handleGenerationError`: remove the identifier of the record
from the active set (this page keeps failed generations out of its
history). -/
def handleGenerationError (failedGeneration : Generation)
    (s : PageState) : PageState :=
  { s with
    activeGenerations :=
      s.activeGenerations.filter (fun gen => !(gen.id == failedGeneration.id)) }

/-- `GenerationQueue.handleCancelGeneration` composed with the
`onGenerationError` wiring of the page: find the generation in the queue
(the local mirror the queue keeps in sync with the active set of the
page), build the cancelled record — status `failed`, error
`Cancelled by user`, completion timestamp — and hand it to
`onGenerationError`; an absent identifier is ignored. -/
def handleCancelGeneration (generationId now : String)
    (s : PageState) : PageState :=
  match s.activeGenerations.find? (fun g => g.id == generationId) with
  | none => s
  | some generation =>
    handleGenerationError
      { generation with
        status := .failed
        error := some "Cancelled by user"
        completedAt := some now } s

/-- The placeholder URL hard-coded in the `VideoGenerator` version of
`pollForCompletion`. -/
def componentSimulatedVideoUrl : String :=
  "https://storage.googleapis.com/workspace-0f70711f-8b4e-4d94-86f1-2a93ccde5887/image/89456a6b-66dd-4b55-8ed2-54af18d10554.png"

/-- The `setTimeout` callback body of the `VideoGenerator` version of
`pollForCompletion` (`src/unnamed/part_001` lines 637–657), composed with
the `onGenerationComplete` wiring of the page: build a completed record
for `generationId` from the current prompt and config of the component
and hand it to `onGenerationComplete` unconditionally — unlike the hook
version (`pollFire`), this callback performs no membership check before
writing.  `now` stands for the two `new Date().toISOString()` calls of
the same tick. -/
def componentPollFire (generationId prompt : String)
    (config : GenerationConfig) (now : String) (s : PageState) : PageState :=
  handleGenerationComplete
    { id := generationId
      prompt := jsTrim prompt
      config := config
      status := .completed
      createdAt := now
      completedAt := some now
      videoUrl := some componentSimulatedVideoUrl
      error := none
      progress := 100
      taskId := none } s

/-- JSON values, as produced by `JSON.parse`.  The history helpers in
`video-api.ts` are untyped (`generation: any`, `any[]`), so the persisted
history is a list of arbitrary JSON values. -/
inductive Json where
  | null : Json
  | bool (b : Bool) : Json
  | num (q : ℚ) : Json
  | str (s : String) : Json
  | arr (elems : List Json) : Json
  | obj (fields : List (String × Json)) : Json
deriving Repr

/-- The localStorage slot named `video-generation-history`, modelled by the
parsed value of the stored text.  Every write this module performs stores
a JSON array — `saveGenerationToHistory` stores an array literal and
`importGenerationHistory` stores its input only after an `Array.isArray`
check — so the slot holds `Option (List Json)`; `none` covers both an
absent key and unparseable text (whose `JSON.parse` throws into the
`catch` branches). -/
abbrev Store : Type := Option (List Json)

/-- `getGenerationHistory`: return the parsed stored list, or `[]` when
the key is absent or parsing fails. -/
def getGenerationHistory (st : Store) : List Json :=
  match st with
  | some l => l
  | none => []

/-- `saveGenerationToHistory`: read the current history, store
`[generation, ...history.slice(0, 49)]` (keep at most the 49 newest prior
entries under the new one). -/
def saveGenerationToHistory (generation : Json) (st : Store) : Store :=
  some (generation :: (getGenerationHistory st).take 49)

/-- `clearGenerationHistory`: `localStorage.removeItem`. -/
def clearGenerationHistory (_st : Store) : Store :=
  none

/-- `exportGenerationHistory`: `JSON.stringify(getGenerationHistory(), null, 2)`
— the serialized text, given by its JSON value: an array holding the
current history. -/
def exportGenerationHistory (st : Store) : Json :=
  Json.arr (getGenerationHistory st)

/-- `importGenerationHistory(data)`: parse the input text (`none` models
text on which `JSON.parse` throws); if the parsed value is an array,
store the input and return `true`, otherwise leave the slot unchanged and
return `false`. -/
def importGenerationHistory (data : Option Json) (st : Store) : Bool × Store :=
  match data with
  | some (Json.arr l) => (true, some l)
  | some _ => (false, st)
  | none => (false, st)

/-- The outcome of one `fetch` performed by the API client, as the client
code distinguishes them: a parsed 2xx response body; a non-2xx response
(`!response.ok`, which the client turns into a thrown
`HTTP error! status: ...`); or an exception thrown by the transport or by
`response.json()` — `some m` an `Error` with message `m`, `none` a thrown
non-`Error` value. -/
inductive FetchOutcome where
  | success (body : VideoGenerationResponse)
  | httpError (code : Nat)
  | thrown (msg : Option String)
deriving DecidableEq, Repr

/-- `true` exactly on the non-2xx and thrown-exception outcomes. -/
def FetchOutcome.isFailure : FetchOutcome → Bool
  | .success _ => false
  | .httpError _ => true
  | .thrown _ => true

namespace VideoGenerationAPI

/-- `VideoGenerationAPI.generateVideo`: POST the request; on `!response.ok`
throw `HTTP error! status: ${status}`; return the parsed body; the `catch`
turns any thrown value into
a failure response whose error is the thrown message, or `Unknown error occurred`, with status failed.
The function is total: no outcome escapes as an exception. -/
def generateVideo (outcome : FetchOutcome) : VideoGenerationResponse :=
  match outcome with
  | .success body => body
  | .httpError code =>
    { success := false
      videoUrl := none
      error := some ("HTTP error! status: " ++ toString code)
      taskId := none
      status := some .failed
      estimatedTime := none }
  | .thrown msg =>
    { success := false
      videoUrl := none
      error := some (match msg with
        | some m => m
        | none => "Unknown error occurred")
      taskId := none
      status := some .failed
      estimatedTime := none }

/-- `VideoGenerationAPI.checkStatus`: GET the status endpoint; identical
error normalization to `generateVideo`. -/
def checkStatus (outcome : FetchOutcome) : VideoGenerationResponse :=
  match outcome with
  | .success body => body
  | .httpError code =>
    { success := false
      videoUrl := none
      error := some ("HTTP error! status: " ++ toString code)
      taskId := none
      status := some .failed
      estimatedTime := none }
  | .thrown msg =>
    { success := false
      videoUrl := none
      error := some (match msg with
        | some m => m
        | none => "Unknown error occurred")
      taskId := none
      status := some .failed
      estimatedTime := none }

end VideoGenerationAPI

/-- The request body as the proxy endpoint receives it from
`request.json()`: every field may be absent (`undefined`), which the
JavaScript checks handle by falsiness / failed membership tests. -/
structure RawRequest where
  prompt : Option String
  duration : Option ℚ
  aspectRatio : Option String
  style : Option String
  quality : Option String
deriving DecidableEq, Repr

/-- `validateVideoRequest` from `video-api.ts`: the client-side request
validator.  Returns the error message of the first failing rule, or
`none` when the request is acceptable.  `!request.prompt` is the
JavaScript falsiness test (absent or empty string). -/
def validateVideoRequest (request : RawRequest) : Option String :=
  if (match request.prompt with
      | none => true
      | some s => s == "" || jsTrim s == "") then
    some "Prompt is required"
  else if (match request.prompt with
      | none => false
      | some s => decide (s.length > 1000)) then
    some "Prompt must be less than 1000 characters"
  else if !(decide (request.duration ∈
      [some (5 : ℚ), some 10, some 15, some 30])) then
    some "Duration must be 5, 10, 15, or 30 seconds"
  else if !(decide (request.aspectRatio ∈
      [some "16:9", some "9:16", some "1:1"])) then
    some "Invalid aspect ratio"
  else
    none

/-- The validation branch at the top of the `POST` handler of the route
(`route.ts` lines 28–58): the same four checks, in the same order, with
the same messages, as `validateVideoRequest`. -/
def postValidation (body : RawRequest) : Option String :=
  if (match body.prompt with
      | none => true
      | some s => s == "" || jsTrim s == "") then
    some "Prompt is required"
  else if (match body.prompt with
      | none => false
      | some s => decide (s.length > 1000)) then
    some "Prompt must be less than 1000 characters"
  else if !(decide (body.duration ∈
      [some (5 : ℚ), some 10, some 15, some 30])) then
    some "Duration must be 5, 10, 15, or 30 seconds"
  else if !(decide (body.aspectRatio ∈
      [some "16:9", some "9:16", some "1:1"])) then
    some "Invalid aspect ratio"
  else
    none

/-- `estimateProcessingTime` (defined identically in `route.ts` and
`video-api.ts`): ten seconds of processing per second of video, 50% more
for high quality, never below 30. -/
def estimateProcessingTime (duration : ℚ) (quality : String) : ℚ :=
  let baseTime := duration * 10
  let baseTime := if quality = "high" then baseTime * (3 / 2) else baseTime
  max baseTime 30

/-- The outcome of the call of the route to the external provider, enumerated
as the branches of the response analysis in `POST` (lines 82–139): non-ok
HTTP response; a `.mp4` URL found in the message content by the regex;
content mentioning `processing`/`generating`; other content (returned
trimmed as a direct URL); a response without the
`choices[0].message` structure; or a thrown exception (`some m` an
`Error` with message `m`, `none` any other thrown value). -/
inductive ProviderOutcome where
  | httpError (code : Nat) (statusText : String)
  | mp4Found (url : String)
  | processingContent
  | otherContent (content : String)
  | invalidStructure
  | thrown (msg : Option String)
deriving DecidableEq, Repr

/-- The body of a `NextResponse.json(...)` produced by the route: the
JSON payload fields together with the HTTP status code of the response
(200 when the source passes no `{ status }` option). -/
structure RouteResponse where
  success : Bool
  videoUrl : Option String
  error : Option String
  taskId : Option String
  status : Option Status
  estimatedTime : Option ℚ
  httpStatus : Nat
deriving DecidableEq, Repr

/-- The response `POST` builds once validation passed, from the provider
outcome.  `freshTaskId` stands for the `generateTaskId()` call in the route. -/
def handleProviderOutcome (body : RawRequest) (provider : ProviderOutcome)
    (freshTaskId : String) : RouteResponse :=
  match provider with
  | .httpError code statusText =>
    { success := false, videoUrl := none
      error := some ("Failed to generate video: " ++ toString code ++ " " ++
        statusText)
      taskId := none, status := some .failed, estimatedTime := none
      httpStatus := 500 }
  | .mp4Found url =>
    { success := true, videoUrl := some url, error := none, taskId := none
      status := some .completed, estimatedTime := none, httpStatus := 200 }
  | .processingContent =>
    { success := true, videoUrl := none, error := none
      taskId := some freshTaskId, status := some .processing
      estimatedTime := some (estimateProcessingTime (body.duration.getD 0)
        (body.quality.getD ""))
      httpStatus := 200 }
  | .otherContent content =>
    { success := true, videoUrl := some (jsTrim content), error := none
      taskId := none, status := some .completed, estimatedTime := none
      httpStatus := 200 }
  | .invalidStructure =>
    { success := false, videoUrl := none
      error := some "Invalid response from video generation service"
      taskId := none, status := some .failed, estimatedTime := none
      httpStatus := 500 }
  | .thrown msg =>
    { success := false, videoUrl := none
      error := some (match msg with
        | some m => m
        | none => "Internal server error")
      taskId := none, status := some .failed, estimatedTime := none
      httpStatus := 500 }

/-- The `POST` handler of the route: run the four validation checks in source
order; a violation returns the 400 client-error response immediately
(the external provider is reached only on the final `else`, so `provider`
and `freshTaskId` are consulted only there). -/
def POST (body : RawRequest) (provider : ProviderOutcome)
    (freshTaskId : String) : RouteResponse :=
  match postValidation body with
  | some msg =>
    { success := false, videoUrl := none, error := some msg, taskId := none
      status := none, estimatedTime := none, httpStatus := 400 }
  | none => handleProviderOutcome body provider freshTaskId

/-- A sample configuration, as in the scenario of the specification. -/
def cfg0 : GenerationConfig :=
  { duration := 10, aspectRatio := "16:9", style := "cinematic",
    quality := "standard" }

/-- A sample generation as `generateVideo` constructs it. -/
def gA : Generation := mkGeneration "gen_a" "A sunset" cfg0 "t0"

/-- The state after submitting the sample generation from the initial
state. -/
def s1 : TrackerState := startGeneration "gen_a" "A sunset" cfg0 "t0" initialState

/-- `s1` after one firing of the progress ticker that sampled the
increment 8. -/
def s2 : TrackerState := progressTick (fun _ => 8) s1

/-- A still-processing submit response carrying a task identifier. -/
def respProcessing : VideoGenerationResponse :=
  { success := true, videoUrl := none, error := none, taskId := some "task_1",
    status := some Status.processing, estimatedTime := some 100 }

/-- `s2` after the submit response `respProcessing` arrives for the
sample generation. -/
def s3 : TrackerState := handleSubmitResponse gA respProcessing "t2" s2

/-- An immediately-completed submit response. -/
def respCompleted : VideoGenerationResponse :=
  { success := true, videoUrl := some "https://example.com/v.mp4",
    error := none, taskId := none, status := some Status.completed,
    estimatedTime := none }

/-- A request with an invalid duration, as in the scenario of the
specification. -/
def body7 : RawRequest :=
  { prompt := some "A sunset", duration := some 7,
    aspectRatio := some "16:9", style := some "cinematic",
    quality := some "standard" }

/-- The page state after the `VideoGenerator` submits the sample
generation: the active set of the page holds it. -/
def page1 : PageState :=
  handleNewGeneration gA
    { activeGenerations := [], generationHistory := [] }

/-- `page1` after the sample generation is cancelled through the queue:
its identifier is no longer in the active set, and the cancelled record
was not added to the history of the page. -/
def pageAfterCancel : PageState := handleCancelGeneration "gen_a" "t1" page1

/-- Exactly one of the video URL and the error message is present. -/
def terminalExclusive (g : Generation) : Prop :=
  (g.videoUrl ≠ none ∧ g.error = none) ∨ (g.videoUrl = none ∧ g.error ≠ none)

/-- C10: the client-side validator `validateVideoRequest` and the
validation branch of the POST route agree on every request: they accept
the same requests, and on rejection they return the same error message,
so both implementations enforce the same rules. -/
theorem c10_validators_equivalent (request : RawRequest) :
    (validateVideoRequest request = none ↔ postValidation request = none)
    ∧ validateVideoRequest request = postValidation request :=
  ⟨Iff.rfl, rfl⟩

/-- C7: importing the exported history and loading reproduces the
persisted history list unchanged, and the import is accepted. -/
theorem c7_export_import_roundtrip (st : Store) :
    (importGenerationHistory (some (exportGenerationHistory st)) st).1 = true
    ∧ getGenerationHistory
        (importGenerationHistory (some (exportGenerationHistory st)) st).2
      = getGenerationHistory st := by
  cases st <;>
    simp [importGenerationHistory, exportGenerationHistory,
      getGenerationHistory]

/-- C6: `saveGenerationToHistory` prepends the new record (newest-first),
the resulting list never exceeds 50 entries, and if the list already held
50 records the oldest (last) one is evicted. -/
theorem c6_save_prepends_and_caps (generation : Json) (st : Store) :
    getGenerationHistory (saveGenerationToHistory generation st)
      = generation :: (getGenerationHistory st).take 49
    ∧ (getGenerationHistory (saveGenerationToHistory generation st)).length ≤ 50
    ∧ ((getGenerationHistory st).length = 50 →
        getGenerationHistory (saveGenerationToHistory generation st)
          = generation :: (getGenerationHistory st).dropLast) := by
  refine ⟨rfl, ?_, ?_⟩
  · simp only [saveGenerationToHistory, getGenerationHistory,
      List.length_cons, List.length_take]
    omega
  · intro h50
    rw [List.dropLast_eq_take, h50]
    rfl

/-- Witness for C6, at a history that already holds 50 records: the save
evicts the oldest entry. -/
theorem c6_save_prepends_and_caps_witness :
    (getGenerationHistory (some (List.replicate 50 Json.null))).length = 50
    ∧ getGenerationHistory
        (saveGenerationToHistory Json.null (some (List.replicate 50 Json.null)))
      = Json.null ::
        (getGenerationHistory (some (List.replicate 50 Json.null))).dropLast :=
  ⟨rfl,
    (c6_save_prepends_and_caps Json.null
      (some (List.replicate 50 Json.null))).2.2 rfl⟩

/-- C8: the API client never lets a transport failure escape: on every
non-2xx response and on every thrown exception, both `generateVideo` and
`checkStatus` return a response with `success = false`, an error message
present, and status `failed`. -/
theorem c8_client_normalizes_failures (outcome : FetchOutcome)
    (h : outcome.isFailure = true) :
    ((VideoGenerationAPI.generateVideo outcome).success = false
      ∧ (VideoGenerationAPI.generateVideo outcome).error ≠ none
      ∧ (VideoGenerationAPI.generateVideo outcome).status = some Status.failed)
    ∧ ((VideoGenerationAPI.checkStatus outcome).success = false
      ∧ (VideoGenerationAPI.checkStatus outcome).error ≠ none
      ∧ (VideoGenerationAPI.checkStatus outcome).status = some Status.failed) := by
  cases outcome with
  | success body => simp [FetchOutcome.isFailure] at h
  | httpError code =>
    simp [VideoGenerationAPI.generateVideo, VideoGenerationAPI.checkStatus]
  | thrown msg =>
    cases msg <;>
      simp [VideoGenerationAPI.generateVideo, VideoGenerationAPI.checkStatus]

/-- Witness for C8 at a concrete 500 response. -/
theorem c8_client_normalizes_failures_witness :
    (FetchOutcome.httpError 500).isFailure = true
    ∧ ((VideoGenerationAPI.generateVideo (FetchOutcome.httpError 500)).success = false
      ∧ (VideoGenerationAPI.generateVideo (FetchOutcome.httpError 500)).error ≠ none
      ∧ (VideoGenerationAPI.generateVideo (FetchOutcome.httpError 500)).status
          = some Status.failed)
    ∧ ((VideoGenerationAPI.checkStatus (FetchOutcome.httpError 500)).success = false
      ∧ (VideoGenerationAPI.checkStatus (FetchOutcome.httpError 500)).error ≠ none
      ∧ (VideoGenerationAPI.checkStatus (FetchOutcome.httpError 500)).status
          = some Status.failed) :=
  ⟨rfl,
    (c8_client_normalizes_failures (FetchOutcome.httpError 500) rfl).1,
    (c8_client_normalizes_failures (FetchOutcome.httpError 500) rfl).2⟩

/-- C4 evaluated at its failing input, on the `VideoGenerator` component
path the claim cites (`src/unnamed/part_001` lines 637–657): the sample
generation is started and then cancelled through the queue, so its
identifier is no longer in the active set of the page — yet the late
firing of the simulated-completion callback is not a no-op: it prepends a
completed record carrying the cancelled identifier to the history,
resurrecting the entry.  (The hook version of `pollForCompletion`,
embedded as `pollFire`, does check membership before writing; this
component version omits the check the specification mandates.) -/
theorem c4_component_callback_resurrects :
    (∀ g ∈ pageAfterCancel.activeGenerations, g.id ≠ "gen_a")
    ∧ (componentPollFire "gen_a" "A sunset" cfg0 "t9"
        pageAfterCancel).generationHistory
      ≠ pageAfterCancel.generationHistory
    ∧ ((componentPollFire "gen_a" "A sunset" cfg0 "t9"
        pageAfterCancel).generationHistory.map (fun g => (g.id, g.status)))
      = [("gen_a", Status.completed)] := by
  refine ⟨?_, ?_, ?_⟩
  · decide
  · decide
  · rfl

/-- C3: cancelling a generation found in the active set produces the
failed terminal record with message `Cancelled by user`, prepends it to
the history and removes the generation from the active set; cancelling an
identifier that is not in the active set changes nothing. -/
theorem c3_cancel_semantics (id now : String) (s : TrackerState) :
    (∀ g, s.activeGenerations.find? (fun x => x.id == id) = some g →
      g.status = Status.processing →
      cancelGeneration id now s =
        { s with
          generationHistory :=
            { g with
              status := .failed
              error := some "Cancelled by user"
              completedAt := some now } :: s.generationHistory
          activeGenerations :=
            s.activeGenerations.filter (fun x => !(x.id == id)) })
    ∧ (s.activeGenerations.find? (fun x => x.id == id) = none →
        cancelGeneration id now s = s) := by
  constructor
  · intro g hfind _
    unfold cancelGeneration
    rw [hfind]
  · intro hnone
    unfold cancelGeneration
    rw [hnone]

/-- Witness for C3: cancelling the sample processing generation in `s1`. -/
theorem c3_cancel_semantics_witness :
    s1.activeGenerations.find? (fun x => x.id == "gen_a") = some gA
    ∧ gA.status = Status.processing
    ∧ cancelGeneration "gen_a" "t1" s1 =
      { s1 with
        generationHistory :=
          { gA with
            status := .failed
            error := some "Cancelled by user"
            completedAt := some "t1" } :: s1.generationHistory
        activeGenerations :=
          s1.activeGenerations.filter (fun x => !(x.id == "gen_a")) } :=
  ⟨rfl, rfl, (c3_cancel_semantics "gen_a" "t1" s1).1 gA rfl rfl⟩

/-- Counterexample to C2 as stated: `generateVideo` performs no prompt
validation.  Submitting a prompt whose trimmed form is empty still
mutates the active set — a `Generation` is created and appended — whereas
a start that "validates that the trimmed prompt is non-empty" would leave
the active set unchanged.  (The blank-prompt rejection lives in the
`VideoGenerator` UI component, not in the hook.) -/
theorem c2_counterexample :
    jsTrim "   " = ""
    ∧ (startGeneration "gen_1" "   " cfg0 "t0" initialState).activeGenerations
        ≠ initialState.activeGenerations := by
  constructor
  · decide
  · intro h
    simp [startGeneration, initialState] at h

/-- C2 amended: `generateVideo` does not validate the prompt; for every
request — blank or not — it immediately appends exactly one new
`Generation` to the active set, with status `processing`, progress 0, the
trimmed prompt and the freshly generated identifier, leaving the history
unchanged; and whenever the generated identifier differs from every
identifier already in the session (active set and history), the new entry
is the unique holder of its identifier. -/
theorem c2_start_amended (freshId prompt now : String)
    (config : GenerationConfig) (s : TrackerState) :
    (startGeneration freshId prompt config now s).activeGenerations
      = s.activeGenerations ++ [mkGeneration freshId prompt config now]
    ∧ (mkGeneration freshId prompt config now).status = Status.processing
    ∧ (mkGeneration freshId prompt config now).progress = 0
    ∧ (mkGeneration freshId prompt config now).id = freshId
    ∧ (mkGeneration freshId prompt config now).prompt = jsTrim prompt
    ∧ (startGeneration freshId prompt config now s).generationHistory
      = s.generationHistory
    ∧ ((∀ x ∈ s.activeGenerations ++ s.generationHistory, x.id ≠ freshId) →
        ((startGeneration freshId prompt config now s).activeGenerations
          ++ (startGeneration freshId prompt config now s).generationHistory).countP
            (fun x => x.id == freshId) = 1) := by
  refine ⟨rfl, rfl, rfl, rfl, rfl, rfl, ?_⟩
  intro h
  have h1 : s.activeGenerations.countP (fun x => x.id == freshId) = 0 :=
    List.countP_eq_zero.mpr (fun x hx => by
      simpa using h x (List.mem_append_left _ hx))
  have h2 : s.generationHistory.countP (fun x => x.id == freshId) = 0 :=
    List.countP_eq_zero.mpr (fun x hx => by
      simpa using h x (List.mem_append_right _ hx))
  simp [startGeneration, List.countP_append, h1, h2, List.countP_cons,
    mkGeneration]

/-- Witness for C2 (amended), starting the sample generation from the
empty initial state. -/
theorem c2_start_amended_witness :
    (∀ x ∈ initialState.activeGenerations ++ initialState.generationHistory,
      x.id ≠ "gen_1")
    ∧ ((startGeneration "gen_1" "A sunset" cfg0 "t0" initialState).activeGenerations
        ++ (startGeneration "gen_1" "A sunset" cfg0 "t0" initialState).generationHistory).countP
          (fun x => x.id == "gen_1") = 1 := by
  have h : ∀ x ∈ initialState.activeGenerations ++ initialState.generationHistory,
      x.id ≠ "gen_1" := by
    simp [initialState]
  exact ⟨h,
    (c2_start_amended "gen_1" "A sunset" "t0" cfg0 initialState).2.2.2.2.2.2 h⟩

/-- The acceptance condition of the route validation, stated the way
claim C9 lists the rules: a prompt is present and non-blank after
trimming and at most 1000 characters long, the duration is one of
5, 10, 15, 30, and the aspect ratio is one of 16:9, 9:16, 1:1. -/
def goodBody (body : RawRequest) : Prop :=
  (∃ p, body.prompt = some p ∧ jsTrim p ≠ "" ∧ p.length ≤ 1000)
  ∧ body.duration ∈ [some (5 : ℚ), some 10, some 15, some 30]
  ∧ body.aspectRatio ∈ [some "16:9", some "9:16", some "1:1"]

/-- C9: the POST route validates the prompt, duration and aspect ratio
before any external call: it accepts exactly the requests satisfying
`goodBody`, and on any violation it returns a response with
`success = false` and HTTP status 400 carrying the validation message —
and that response is independent of the external provider, i.e. no
provider call is consulted. -/
theorem c9_route_validates_before_call (body : RawRequest) :
    (postValidation body = none ↔ goodBody body)
    ∧ (∀ msg, postValidation body = some msg →
        ∀ (p₁ p₂ : ProviderOutcome) (t₁ t₂ : String),
          (POST body p₁ t₁).success = false
          ∧ (POST body p₁ t₁).httpStatus = 400
          ∧ (POST body p₁ t₁).error = some msg
          ∧ POST body p₁ t₁ = POST body p₂ t₂) := by
  constructor
  · have key : postValidation body = none ↔
        ((match body.prompt with
          | none => true
          | some s => s == "" || jsTrim s == "") = false
         ∧ (match body.prompt with
          | none => false
          | some s => decide (s.length > 1000)) = false
         ∧ decide (body.duration ∈
             [some (5 : ℚ), some 10, some 15, some 30]) = true
         ∧ decide (body.aspectRatio ∈
             [some "16:9", some "9:16", some "1:1"]) = true) := by
      unfold postValidation
      split_ifs with h1 h2 h3 h4 <;> simp_all
      tauto
    rw [key]
    cases hp : body.prompt with
    | none => simp [goodBody, hp]
    | some p =>
      simp only [goodBody, hp, Bool.or_eq_false_iff, beq_eq_false_iff_ne,
        decide_eq_false_iff_not, decide_eq_true_eq, ne_eq, Option.some.injEq,
        not_lt]
      constructor
      · rintro ⟨⟨hpe, hpt⟩, hlen, h3, h4⟩
        exact ⟨⟨p, rfl, hpt, hlen⟩, h3, h4⟩
      · rintro ⟨⟨q, hq, hqt, hql⟩, h3, h4⟩
        subst hq
        exact ⟨⟨fun he => hqt (by rw [he]; rfl), hqt⟩, hql, h3, h4⟩
  · intro msg hmsg p₁ p₂ t₁ t₂
    unfold POST
    rw [hmsg]
    exact ⟨rfl, rfl, rfl, rfl⟩

/-- Witness for C9 at the scenario of the specification: duration 7 is
rejected with HTTP 400, and the response does not depend on the provider
outcome. -/
theorem c9_route_validates_before_call_witness :
    postValidation body7 = some "Duration must be 5, 10, 15, or 30 seconds"
    ∧ ((POST body7 ProviderOutcome.invalidStructure "task_1").success = false
      ∧ (POST body7 ProviderOutcome.invalidStructure "task_1").httpStatus = 400
      ∧ (POST body7 ProviderOutcome.invalidStructure "task_1").error
          = some "Duration must be 5, 10, 15, or 30 seconds"
      ∧ POST body7 ProviderOutcome.invalidStructure "task_1"
          = POST body7 (ProviderOutcome.mp4Found "https://example.com/v.mp4")
              "task_2") := by
  have h : postValidation body7
      = some "Duration must be 5, 10, 15, or 30 seconds" := by decide
  exact ⟨h,
    (c9_route_validates_before_call body7).2 _ h
      ProviderOutcome.invalidStructure
      (ProviderOutcome.mp4Found "https://example.com/v.mp4") "task_1" "task_2"⟩

/-- Counterexample to C5 as stated: progress can decrease across a
submit-response update.  Starting from the initial state: submit the
sample generation (progress 0), let the ticker fire once with increment 8
(progress 8, a legal sample of `Math.random() * 8 + 2`), then let the
still-processing submit response arrive — it sets progress to 5
unconditionally, a decrease from 8. -/
theorem c5_counterexample :
    ¬ (∀ x ∈ s3.activeGenerations, ∀ y ∈ s2.activeGenerations,
        x.id = y.id → y.progress ≤ x.progress) := by
  intro h
  have e2 : s2.activeGenerations = [{ gA with progress := 8 }] := by
    simp only [s2, s1, progressTick, startGeneration, initialState,
      List.nil_append, List.map_cons, List.map_nil, tickGen, gA, mkGeneration]
    norm_num [min_def]
  have e3 : s3.activeGenerations
      = [{ gA with taskId := some "task_1", progress := 5 }] := by
    have hg1 : ¬ (respProcessing.success = true
        ∧ respProcessing.status = some Status.completed
        ∧ strTruthy respProcessing.videoUrl = true) := by
      simp [respProcessing]
    have hg2 : respProcessing.success = true
        ∧ respProcessing.status = some Status.processing := ⟨rfl, rfl⟩
    show (handleSubmitResponse gA respProcessing "t2" s2).activeGenerations = _
    unfold handleSubmitResponse
    rw [if_neg hg1, if_pos hg2, e2]
    simp [gA, mkGeneration, respProcessing]
  have hx : ({ gA with taskId := some "task_1", progress := 5 } : Generation)
      ∈ s3.activeGenerations := by
    rw [e3]; exact List.mem_singleton.mpr rfl
  have hy : ({ gA with progress := 8 } : Generation) ∈ s2.activeGenerations := by
    rw [e2]; exact List.mem_singleton.mpr rfl
  have hle : (8 : ℚ) ≤ 5 := h _ hx _ hy rfl
  norm_num at hle

/-- C5 amended: the background ticker never decreases progress — it
changes only generations that are `processing` with progress `< 90`, and
its result never exceeds 90; progress is set to 100 exactly on the two
transitions to `completed` (immediate completion and the simulated
completion); but the submit-response update for a still-processing result
sets progress to exactly 5 regardless of its current value, so that one
step can decrease progress when ticker firings preceded the response. -/
theorem c5_progress_amended :
    (∀ (inc : ℚ) (g : Generation), 2 ≤ inc →
      g.progress ≤ (tickGen inc g).progress)
    ∧ (∀ (inc : ℚ) (g : Generation), g.progress < 90 →
      (tickGen inc g).progress ≤ 90)
    ∧ (∀ (inc : ℚ) (g : Generation),
      ¬ (g.status = Status.processing ∧ g.progress < 90) → tickGen inc g = g)
    ∧ (∀ (g : Generation) (resp : VideoGenerationResponse) (now : String)
        (s : TrackerState),
      resp.success = true ∧ resp.status = some Status.completed ∧
          strTruthy resp.videoUrl = true →
      ∃ r, (handleSubmitResponse g resp now s).generationHistory
          = r :: s.generationHistory
        ∧ r.status = Status.completed ∧ r.progress = 100)
    ∧ (∀ (generationId now : String) (s : TrackerState) (x : Generation),
      s.activeGenerations.find? (fun y => y.id == generationId) = some x →
      ∃ r, (pollFire generationId now s).generationHistory
          = r :: s.generationHistory
        ∧ r.status = Status.completed ∧ r.progress = 100)
    ∧ (∀ (g : Generation) (resp : VideoGenerationResponse) (now : String)
        (s : TrackerState),
      resp.success = true ∧ resp.status = some Status.processing →
      (handleSubmitResponse g resp now s).activeGenerations
        = s.activeGenerations.map (fun x =>
            if x.id = g.id then { x with taskId := resp.taskId, progress := 5 }
            else x)) := by
  refine ⟨?_, ?_, ?_, ?_, ?_, ?_⟩
  · intro inc g hinc
    unfold tickGen
    split_ifs with h
    · show g.progress ≤ min (g.progress + inc) 90
      exact le_min (by linarith) h.2.le
    · exact le_refl _
  · intro inc g h90
    unfold tickGen
    split_ifs with h
    · exact min_le_right _ _
    · exact le_of_lt h90
  · intro inc g h
    unfold tickGen
    rw [if_neg h]
  · intro g resp now s hcond
    unfold handleSubmitResponse
    rw [if_pos hcond]
    exact ⟨_, rfl, rfl, rfl⟩
  · intro generationId now s x hfind
    unfold pollFire
    rw [hfind]
    exact ⟨_, rfl, rfl, rfl⟩
  · rintro g resp now s ⟨hs, hp⟩
    have hneg : ¬ (resp.success = true ∧ resp.status = some Status.completed
        ∧ strTruthy resp.videoUrl = true) := by
      rintro ⟨-, hc, -⟩
      rw [hp] at hc
      simp at hc
    unfold handleSubmitResponse
    rw [if_neg hneg, if_pos ⟨hs, hp⟩]

/-- Witness for C5 (amended): one tick with the minimal increment 2 does
not decrease the progress of the sample generation. -/
theorem c5_progress_amended_witness :
    (2 : ℚ) ≤ 2 ∧ gA.progress ≤ (tickGen 2 gA).progress :=
  ⟨by norm_num, c5_progress_amended.1 2 gA (by norm_num)⟩

/-- C1: every path that takes a generation to a terminal status — the
immediate-completion branch and the failure branch of the submit handler,
cancellation, and the simulated-completion callback — prepends one
terminal record to the history on which exactly one of the video URL and
the error message is set, and leaves no generation with that identifier
in the active set.  The hypotheses record what is true of those inputs in
the running program: the record captured at submission and every record
in the active set carry neither a video URL nor an error yet. -/
theorem c1_terminal_records (g : Generation) (resp : VideoGenerationResponse)
    (now cid : String) (s : TrackerState)
    (hg : g.videoUrl = none ∧ g.error = none)
    (hactive : ∀ x ∈ s.activeGenerations, x.videoUrl = none ∧ x.error = none) :
    ((resp.success = true ∧ resp.status = some Status.completed ∧
        strTruthy resp.videoUrl = true) →
      ∃ r, (handleSubmitResponse g resp now s).generationHistory
          = r :: s.generationHistory
        ∧ terminalExclusive r
        ∧ (r.status = Status.completed ∨ r.status = Status.failed)
        ∧ ∀ x ∈ (handleSubmitResponse g resp now s).activeGenerations,
            x.id ≠ r.id)
    ∧ (¬ (resp.success = true ∧ ((resp.status = some Status.completed ∧
          strTruthy resp.videoUrl = true) ∨ resp.status = some Status.processing)) →
      ∃ r, (handleSubmitResponse g resp now s).generationHistory
          = r :: s.generationHistory
        ∧ terminalExclusive r
        ∧ (r.status = Status.completed ∨ r.status = Status.failed)
        ∧ ∀ x ∈ (handleSubmitResponse g resp now s).activeGenerations,
            x.id ≠ r.id)
    ∧ (∀ x, s.activeGenerations.find? (fun y => y.id == cid) = some x →
      ∃ r, (cancelGeneration cid now s).generationHistory
          = r :: s.generationHistory
        ∧ terminalExclusive r
        ∧ (r.status = Status.completed ∨ r.status = Status.failed)
        ∧ ∀ y ∈ (cancelGeneration cid now s).activeGenerations, y.id ≠ r.id)
    ∧ (∀ x, s.activeGenerations.find? (fun y => y.id == cid) = some x →
      ∃ r, (pollFire cid now s).generationHistory = r :: s.generationHistory
        ∧ terminalExclusive r
        ∧ (r.status = Status.completed ∨ r.status = Status.failed)
        ∧ ∀ y ∈ (pollFire cid now s).activeGenerations, y.id ≠ r.id) := by
  refine ⟨?_, ?_, ?_, ?_⟩
  · intro hcond
    unfold handleSubmitResponse
    rw [if_pos hcond]
    refine ⟨_, rfl, Or.inl ⟨?_, hg.2⟩, Or.inl rfl, ?_⟩
    · have hv := hcond.2.2
      cases hvu : resp.videoUrl with
      | none => rw [hvu] at hv; simp [strTruthy] at hv
      | some u => simp
    · intro x hx
      have hpred := (List.mem_filter.mp hx).2
      simp only [Bool.not_eq_true', beq_eq_false_iff_ne, ne_eq] at hpred
      exact hpred
  · intro hcond
    have hn1 : ¬ (resp.success = true ∧ resp.status = some Status.completed
        ∧ strTruthy resp.videoUrl = true) :=
      fun ⟨a, b, c⟩ => hcond ⟨a, Or.inl ⟨b, c⟩⟩
    have hn2 : ¬ (resp.success = true ∧ resp.status = some Status.processing) :=
      fun ⟨a, b⟩ => hcond ⟨a, Or.inr b⟩
    unfold handleSubmitResponse
    rw [if_neg hn1, if_neg hn2]
    refine ⟨_, rfl, Or.inr ⟨hg.1, by simp⟩, Or.inr rfl, ?_⟩
    intro x hx
    have hpred := (List.mem_filter.mp hx).2
    simp only [Bool.not_eq_true', beq_eq_false_iff_ne, ne_eq] at hpred
    exact hpred
  · intro x hfind
    have hmem := List.mem_of_find?_eq_some hfind
    have hid : x.id = cid := by
      have := List.find?_some hfind
      simpa using this
    unfold cancelGeneration
    rw [hfind]
    refine ⟨_, rfl, Or.inr ⟨(hactive x hmem).1, by simp⟩, Or.inr rfl, ?_⟩
    intro y hy
    have hpred := (List.mem_filter.mp hy).2
    simp only [Bool.not_eq_true', beq_eq_false_iff_ne, ne_eq] at hpred
    show y.id ≠ x.id
    rw [hid]
    exact hpred
  · intro x hfind
    have hmem := List.mem_of_find?_eq_some hfind
    have hid : x.id = cid := by
      have := List.find?_some hfind
      simpa using this
    unfold pollFire
    rw [hfind]
    refine ⟨_, rfl, Or.inl ⟨by simp [simulatedVideoUrl], (hactive x hmem).2⟩,
      Or.inl rfl, ?_⟩
    intro y hy
    have hpred := (List.mem_filter.mp hy).2
    simp only [Bool.not_eq_true', beq_eq_false_iff_ne, ne_eq] at hpred
    show y.id ≠ x.id
    rw [hid]
    exact hpred

/-- Witness for C1: the immediate completion of the sample generation
from state `s1` prepends an exclusive terminal record and clears its
identifier from the active set. -/
theorem c1_terminal_records_witness :
    (gA.videoUrl = none ∧ gA.error = none)
    ∧ (∀ x ∈ s1.activeGenerations, x.videoUrl = none ∧ x.error = none)
    ∧ (respCompleted.success = true
      ∧ respCompleted.status = some Status.completed
      ∧ strTruthy respCompleted.videoUrl = true)
    ∧ (∃ r, (handleSubmitResponse gA respCompleted "t2" s1).generationHistory
          = r :: s1.generationHistory
        ∧ terminalExclusive r
        ∧ (r.status = Status.completed ∨ r.status = Status.failed)
        ∧ ∀ x ∈ (handleSubmitResponse gA respCompleted "t2" s1).activeGenerations,
            x.id ≠ r.id) := by
  have hg : gA.videoUrl = none ∧ gA.error = none := ⟨rfl, rfl⟩
  have ha : ∀ x ∈ s1.activeGenerations, x.videoUrl = none ∧ x.error = none := by
    intro x hx
    simp [s1, startGeneration, initialState] at hx
    subst hx
    exact ⟨rfl, rfl⟩
  have hcond : respCompleted.success = true
      ∧ respCompleted.status = some Status.completed
      ∧ strTruthy respCompleted.videoUrl = true := ⟨rfl, rfl, rfl⟩
  exact ⟨hg, ha, hcond,
    (c1_terminal_records gA respCompleted "t2" "gen_a" s1 hg ha).1 hcond⟩
